import Mathlib

/-!
Verification of the tag-dispatch logic of `readnfc.py` (vinylemulator).

The embedding models `on_tag_detected` (the handler invoked once per NDEF text
record), the polling loop of `NFCReader.run`, and the configuration modules it
reads.  Outbound HTTP traffic (`requests.get` / `requests.post`) is represented
by a trace of requests together with a network oracle assigning each request a
response or a raised exception.
-/

/-- Python `str.startswith(pre)`: the code points of `pre` are a prefix of those
of `s`. -/
def pyStartswith (s pre : String) : Bool := pre.data.isPrefixOf s.data

/-- Python `str.lower()` (ASCII range), applied code point by code point. -/
def pyLower (s : String) : String := ⟨s.data.map Char.toLower⟩

/-- The fields of the `usersettings` module read by `on_tag_detected`. -/
structure UserSettings where
  sonoshttpaddress : String
  sendanonymoususagestatistics : String
deriving DecidableEq, Repr

/-- The fields of the `appsettings` module read by the telemetry post. -/
structure AppSettings where
  usagestatsurl : String
  appversion : String
deriving DecidableEq, Repr

/-- One outbound HTTP request issued by the handler: `requests.get url`, or the
telemetry `requests.post url` whose distinguishing payload field is `value3`. -/
inductive Request where
  | get (url : String)
  | post (url : String) (value3 : String)
deriving DecidableEq, Repr

/-- An HTTP response: the status code, and `jsonStatus = none` models a body on
which `r.json()["status"]` raises. -/
structure HttpResponse where
  status_code : Nat
  jsonStatus : Option String
deriving DecidableEq, Repr

/-- Network oracle: the outcome of each request; `Except.error` models a raised
exception (e.g. `requests.exceptions.ConnectionError`). -/
def Net : Type := Request → Except String HttpResponse

/-- Lines 117-156 of `readnfc.py`: the chain of
`if receivedtext_lower.startswith(...)` statements assigning `servicetype` and
`sonosinstruction`; each test is executed in order and a later match overwrites
an earlier one.  Returns the pair `(servicetype, sonosinstruction)`, with
`("", "")` when no test matched (in the source `sonosinstruction` is then left
unassigned, and it is never read on that path). -/
def classify (receivedtext : String) : String × String :=
  let receivedtext_lower := pyLower receivedtext
  let r : String × String := ("", "")
  let r := if pyStartswith receivedtext_lower "http" then
    ("completeurl", receivedtext) else r
  let r := if pyStartswith receivedtext_lower "spotify" then
    ("spotify", "spotify/now/" ++ receivedtext) else r
  let r := if pyStartswith receivedtext_lower "tunein" then
    ("tunein", receivedtext) else r
  let r := if pyStartswith receivedtext_lower "favorite" then
    ("favorite", receivedtext) else r
  let r := if pyStartswith receivedtext_lower "amazonmusic:" then
    ("amazonmusic", "amazonmusic/now/" ++ receivedtext.drop 12) else r
  let r := if pyStartswith receivedtext_lower "apple:" then
    ("applemusic", "applemusic/now/" ++ receivedtext.drop 6) else r
  let r := if pyStartswith receivedtext_lower "applemusic:" then
    ("applemusic", "applemusic/now/" ++ receivedtext.drop 11) else r
  let r := if pyStartswith receivedtext_lower "bbcsounds:" then
    ("bbcsounds", "bbcsounds/play/" ++ receivedtext.drop 10) else r
  let r := if pyStartswith receivedtext_lower "command" then
    ("command", receivedtext.drop 8) else r
  r

/-- The ten prefixes recognised by `on_tag_detected` (nine service prefixes of
`classify` plus `room`). -/
def knownPrefixes : List String :=
  ["http", "spotify", "tunein", "favorite", "amazonmusic:", "apple:",
   "applemusic:", "bbcsounds:", "command", "room"]

/-- Lines 173-177: the URL requested to trigger playback. -/
def urltoget (us : UserSettings) (sonosroom_local : String) (t : String) : String :=
  if pyLower (classify t).1 = "completeurl" then (classify t).2
  else us.sonoshttpaddress ++ "/" ++ sonosroom_local ++ "/" ++ (classify t).2

deriving instance DecidableEq for Except

/-- Result of handling one NDEF text record: the HTTP requests issued in order,
the value of the `sonosroom_local` global afterwards, and the control outcome —
`Except.ok true` for the `return True` paths, `Except.error e` when an uncaught
exception escapes the handler. -/
structure DispatchResult where
  trace : List Request
  room : String
  outcome : Except String Bool
deriving DecidableEq, Repr

/-- Lines 191-199 of `readnfc.py`: `r = requests.get(urltoget)` (uncaught on
failure), the `r.status_code != 200` early return, and the uncaught
`r.json()['status']` read. -/
def playStep (net : Net) (url : String) (preTrace : List Request)
    (sonosroom_local : String) : DispatchResult :=
  match net (Request.get url) with
  | Except.error e =>
      ⟨preTrace ++ [Request.get url], sonosroom_local, Except.error e⟩
  | Except.ok r =>
      if r.status_code ≠ 200 then
        ⟨preTrace ++ [Request.get url], sonosroom_local, Except.ok true⟩
      else
        match r.jsonStatus with
        | none =>
            ⟨preTrace ++ [Request.get url], sonosroom_local,
             Except.error "json decode failed"⟩
        | some _ =>
            ⟨preTrace ++ [Request.get url], sonosroom_local, Except.ok true⟩

/-- Lines 113-199 of `readnfc.py`: `on_tag_detected` for one NDEF text record
whose text was read successfully.  Mirrors, in order: the service-type
classification, the `room` early return (lines 158-162), the
unrecognised-service return with optional telemetry post (lines 164-169), the
URL construction (173-177), the guarded Sonos API pre-flight check (179-184,
the only `requests` call inside a `try`), the queue clear for every service
type except `command` (186-189), and the playback request (191-199). -/
def on_tag_detected (us : UserSettings) (ap : AppSettings) (net : Net)
    (sonosroom_local : String) (receivedtext : String) : DispatchResult :=
  let receivedtext_lower := pyLower receivedtext
  let servicetype := (classify receivedtext).1
  if pyStartswith receivedtext_lower "room" then
    ⟨[], receivedtext.drop 5, Except.ok true⟩
  else if servicetype = "" then
    if us.sendanonymoususagestatistics = "yes" then
      match net (Request.post ap.usagestatsurl "invalid service type sent") with
      | Except.error e =>
          ⟨[Request.post ap.usagestatsurl "invalid service type sent"],
           sonosroom_local, Except.error e⟩
      | Except.ok _ =>
          ⟨[Request.post ap.usagestatsurl "invalid service type sent"],
           sonosroom_local, Except.ok true⟩
    else ⟨[], sonosroom_local, Except.ok true⟩
  else
    match net (Request.get us.sonoshttpaddress) with
    | Except.error _ =>
        ⟨[Request.get us.sonoshttpaddress], sonosroom_local, Except.ok true⟩
    | Except.ok _ =>
        if servicetype ≠ "command" then
          let clearUrl := us.sonoshttpaddress ++ "/" ++ sonosroom_local ++ "/clearqueue"
          match net (Request.get clearUrl) with
          | Except.error e =>
              ⟨[Request.get us.sonoshttpaddress, Request.get clearUrl],
               sonosroom_local, Except.error e⟩
          | Except.ok _ =>
              playStep net (urltoget us sonosroom_local receivedtext)
                [Request.get us.sonoshttpaddress, Request.get clearUrl]
                sonosroom_local
        else
          playStep net (urltoget us sonosroom_local receivedtext)
            [Request.get us.sonoshttpaddress] sonosroom_local

/-- Lines 91-100 of `readnfc.py`: one iteration of the polling loop.
`reader.connect` runs the handler; the surrounding `except Exception` clause
catches anything that escapes it, so the iteration always completes, yielding
the new room and whether the loop-level handler caught an exception. -/
def pollOnce (us : UserSettings) (ap : AppSettings) (net : Net)
    (sonosroom_local : String) (receivedtext : String) : String × Bool :=
  let r := on_tag_detected us ap net sonosroom_local receivedtext
  match r.outcome with
  | Except.ok _ => (r.room, false)
  | Except.error _ => (r.room, true)

/-- The `while self.running` polling loop over a finite schedule of tag texts;
the schedule running out models the shutdown signal clearing `self.running`.
Returns the final room and the number of tags processed. -/
def runLoop (us : UserSettings) (ap : AppSettings) (net : Net) :
    String → List String → String × Nat
  | room, [] => (room, 0)
  | room, t :: ts =>
      let p := pollOnce us ap net room t
      let rest := runLoop us ap net p.1 ts
      (rest.1, rest.2 + 1)

/-- A controllable speaker/group as enumerated from the device fleet. -/
structure TargetHandle where
  name : String
deriving DecidableEq, Repr

/-- Failure of room-to-target resolution. -/
inductive ResolveError where
  | TargetNotFound
deriving DecidableEq, Repr

/-- Modelled from the spec: the Room/Target Registry of spec section 4.2 lives in
the direct-control variant of the repository, which is not under `src/`.  Per the
contract, `resolve` fails with `TargetNotFound` only when the fleet enumeration
is empty; when the named room is present it returns the matching target, and
otherwise it falls back to the first enumerated target, signalling a non-fatal
"fallback used" warning (the `Bool` component). -/
def resolve (fleet : List TargetHandle) (roomName : String) :
    Except ResolveError (TargetHandle × Bool) :=
  match fleet with
  | [] => Except.error ResolveError.TargetNotFound
  | t :: ts =>
      match (t :: ts).find? (fun tgt => tgt.name == roomName) with
      | some tgt => Except.ok (tgt, false)
      | none => Except.ok (t, true)

/-- Concrete settings used for witnesses: telemetry disabled. -/
def usNo : UserSettings := ⟨"http://192.168.1.10:5005", "no"⟩

/-- Concrete settings used for witnesses: telemetry enabled. -/
def usYes : UserSettings := ⟨"http://192.168.1.10:5005", "yes"⟩

/-- Concrete app settings used for witnesses. -/
def apX : AppSettings := ⟨"http://stats.example/track", "3.0"⟩

/-- A network where every request succeeds with status 200 and a JSON status. -/
def netOk : Net := fun _ => Except.ok ⟨200, some "success"⟩

/-- A network where the queue-clear request raises and everything else
succeeds. -/
def netClearFails : Net := fun r =>
  match r with
  | Request.get u =>
      if u = "http://192.168.1.10:5005/Kitchen/clearqueue" then
        Except.error "ConnectionError"
      else Except.ok ⟨200, some "success"⟩
  | Request.post _ _ => Except.ok ⟨200, some "success"⟩

/-- A network where the pre-flight request to the gateway base URL raises and
everything else succeeds. -/
def netPreFails : Net := fun r =>
  match r with
  | Request.get u =>
      if u = "http://192.168.1.10:5005" then Except.error "ConnectionError"
      else Except.ok ⟨200, some "success"⟩
  | Request.post _ _ => Except.ok ⟨200, some "success"⟩

theorem pyStartswith_iff (s p : String) :
    pyStartswith s p = true ↔ p.data <+: s.data := by
  simp [pyStartswith, List.isPrefixOf_iff_prefix]

/-- Two incomparable prefixes cannot both match the same string. -/
theorem pyStartswith_false_of_incomp (l p q : String)
    (hp : pyStartswith l p = true)
    (h1 : ¬ p.data <+: q.data) (h2 : ¬ q.data <+: p.data) :
    pyStartswith l q = false := by
  rw [pyStartswith_iff] at hp
  by_contra h
  rw [Bool.not_eq_false, pyStartswith_iff] at h
  rcases Nat.le_total p.data.length q.data.length with hle | hle
  · have hpq := List.prefix_of_prefix_length_le hp h hle
    exact h1 hpq
  · have hqp := List.prefix_of_prefix_length_le h hp hle
    exact h2 hqp

/-- A text starting (case-insensitively) with `command` is classified as a
`command` directive whose instruction is the text after the first 8
characters. -/
theorem classify_of_command (t : String)
    (h : pyStartswith (pyLower t) "command" = true) :
    classify t = ("command", t.drop 8) := by
  have h1 : pyStartswith (pyLower t) "http" = false :=
    pyStartswith_false_of_incomp _ _ _ h (by decide) (by decide)
  have h2 : pyStartswith (pyLower t) "spotify" = false :=
    pyStartswith_false_of_incomp _ _ _ h (by decide) (by decide)
  have h3 : pyStartswith (pyLower t) "tunein" = false :=
    pyStartswith_false_of_incomp _ _ _ h (by decide) (by decide)
  have h4 : pyStartswith (pyLower t) "favorite" = false :=
    pyStartswith_false_of_incomp _ _ _ h (by decide) (by decide)
  have h5 : pyStartswith (pyLower t) "amazonmusic:" = false :=
    pyStartswith_false_of_incomp _ _ _ h (by decide) (by decide)
  have h6 : pyStartswith (pyLower t) "apple:" = false :=
    pyStartswith_false_of_incomp _ _ _ h (by decide) (by decide)
  have h7 : pyStartswith (pyLower t) "applemusic:" = false :=
    pyStartswith_false_of_incomp _ _ _ h (by decide) (by decide)
  have h8 : pyStartswith (pyLower t) "bbcsounds:" = false :=
    pyStartswith_false_of_incomp _ _ _ h (by decide) (by decide)
  simp [classify, h1, h2, h3, h4, h5, h6, h7, h8, h]

/-- A text starting (case-insensitively) with `command` never starts with
`room`. -/
theorem room_false_of_command (t : String)
    (h : pyStartswith (pyLower t) "command" = true) :
    pyStartswith (pyLower t) "room" = false :=
  pyStartswith_false_of_incomp _ _ _ h (by decide) (by decide)

theorem playStep_room (net : Net) (u : String) (pre : List Request)
    (room : String) : (playStep net u pre room).room = room := by
  unfold playStep
  cases h : net (Request.get u) with
  | error e => rfl
  | ok r =>
      by_cases hc : r.status_code ≠ 200
      · simp [hc]
      · cases hj : r.jsonStatus <;> simp [hc, hj]

theorem playStep_trace (net : Net) (u : String) (pre : List Request)
    (room : String) : (playStep net u pre room).trace = pre ++ [Request.get u] := by
  unfold playStep
  cases h : net (Request.get u) with
  | error e => rfl
  | ok r =>
      by_cases hc : r.status_code ≠ 200
      · simp [hc]
      · cases hj : r.jsonStatus <;> simp [hc, hj]

/-- C2: a string beginning case-insensitively with `applemusic:` is classified
as the applemusic service with instruction `applemusic/now/` followed by the
text after the first 11 characters, and it never satisfies the `apple:` prefix
test (so the `apple:` rule, which would take the text after 6 characters, never
handles it). -/
theorem applemusic_not_misread_as_apple (s : String)
    (h : pyStartswith (pyLower s) "applemusic:" = true) :
    classify s = ("applemusic", "applemusic/now/" ++ s.drop 11) ∧
    pyStartswith (pyLower s) "apple:" = false := by
  have h1 : pyStartswith (pyLower s) "http" = false :=
    pyStartswith_false_of_incomp _ _ _ h (by decide) (by decide)
  have h2 : pyStartswith (pyLower s) "spotify" = false :=
    pyStartswith_false_of_incomp _ _ _ h (by decide) (by decide)
  have h3 : pyStartswith (pyLower s) "tunein" = false :=
    pyStartswith_false_of_incomp _ _ _ h (by decide) (by decide)
  have h4 : pyStartswith (pyLower s) "favorite" = false :=
    pyStartswith_false_of_incomp _ _ _ h (by decide) (by decide)
  have h5 : pyStartswith (pyLower s) "amazonmusic:" = false :=
    pyStartswith_false_of_incomp _ _ _ h (by decide) (by decide)
  have h6 : pyStartswith (pyLower s) "apple:" = false :=
    pyStartswith_false_of_incomp _ _ _ h (by decide) (by decide)
  have h8 : pyStartswith (pyLower s) "bbcsounds:" = false :=
    pyStartswith_false_of_incomp _ _ _ h (by decide) (by decide)
  have h9 : pyStartswith (pyLower s) "command" = false :=
    pyStartswith_false_of_incomp _ _ _ h (by decide) (by decide)
  refine ⟨?_, h6⟩
  simp [classify, h1, h2, h3, h4, h5, h6, h8, h9, h]

/-- C2 witness: the theorem applied to the concrete tag text
`AppleMusic:abc123`. -/
theorem applemusic_not_misread_as_apple_witness :
    classify "AppleMusic:abc123" =
      ("applemusic", "applemusic/now/" ++ "AppleMusic:abc123".drop 11) ∧
    pyStartswith (pyLower "AppleMusic:abc123") "apple:" = false :=
  applemusic_not_misread_as_apple "AppleMusic:abc123" (by decide)

/-- C10: every tag text beginning case-insensitively with `room` — the bare
string `room` and words like `roomba` included — takes the room-change branch:
no request is issued, `sonosroom_local` becomes the text after the first 5
characters (possibly empty), and the handler returns `True`; no separator or
non-emptiness validation occurs. -/
theorem room_prefix_always_changes_room (us : UserSettings) (ap : AppSettings)
    (net : Net) (room0 t : String)
    (h : pyStartswith (pyLower t) "room" = true) :
    on_tag_detected us ap net room0 t = ⟨[], t.drop 5, Except.ok true⟩ := by
  simp [on_tag_detected, h]

/-- C10 witness: the theorem applied to the bare text `room` (empty new room)
and to `roomba`. -/
theorem room_prefix_always_changes_room_witness :
    on_tag_detected usNo apX netOk "Den" "room" =
      ⟨[], "room".drop 5, Except.ok true⟩ ∧
    on_tag_detected usNo apX netOk "Den" "roomba" =
      ⟨[], "roomba".drop 5, Except.ok true⟩ ∧
    "room".drop 5 = "" ∧ "roomba".drop 5 = "a" :=
  ⟨room_prefix_always_changes_room usNo apX netOk "Den" "room" (by decide),
   room_prefix_always_changes_room usNo apX netOk "Den" "roomba" (by decide),
   by decide, by decide⟩

/-- C5 counterexample: on the tag text `ROOM: Kitchen` the room becomes
`" Kitchen"` — the text after the first 5 characters keeps its leading space —
and not `"Kitchen"` as the claim states. -/
theorem room_kitchen_payload_counterexample :
    (on_tag_detected usNo apX netOk "LivingRoom" "ROOM: Kitchen").room =
      " Kitchen" ∧
    (on_tag_detected usNo apX netOk "LivingRoom" "ROOM: Kitchen").room ≠
      "Kitchen" := by
  decide

/-- C5 (amended): `ROOM: Kitchen` is recognised as a room directive whose
payload is the text after the first 5 characters, `" Kitchen"` (leading space
preserved); the handler sets `sonosroom_local` to `" Kitchen"`, issues no
request, and returns `True` immediately. -/
theorem room_kitchen_roundtrip (us : UserSettings) (ap : AppSettings)
    (net : Net) (room0 : String) :
    pyStartswith (pyLower "ROOM: Kitchen") "room" = true ∧
    "ROOM: Kitchen".drop 5 = " Kitchen" ∧
    on_tag_detected us ap net room0 "ROOM: Kitchen" =
      ⟨[], " Kitchen", Except.ok true⟩ := by
  refine ⟨by decide, by decide, ?_⟩
  have h : pyStartswith (pyLower "ROOM: Kitchen") "room" = true := by decide
  simp only [on_tag_detected, h, if_true]
  decide

/-- C7: `sonosroom_local` is mutated only by room directives — for any tag text
not beginning case-insensitively with `room` the dispatch leaves the current
room unchanged, whatever the network does — and a room directive returns `True`
immediately after updating the room, issuing no request at all. -/
theorem room_state_only_mutated_by_room (us : UserSettings) (ap : AppSettings)
    (net : Net) (room0 t : String) :
    (pyStartswith (pyLower t) "room" = false →
      (on_tag_detected us ap net room0 t).room = room0) ∧
    (pyStartswith (pyLower t) "room" = true →
      on_tag_detected us ap net room0 t = ⟨[], t.drop 5, Except.ok true⟩) := by
  constructor
  · intro h
    unfold on_tag_detected
    simp only [h, Bool.false_eq_true, if_false]
    by_cases hs : (classify t).1 = ""
    · simp only [hs, if_true]
      by_cases hy : us.sendanonymoususagestatistics = "yes"
      · simp only [hy, if_true]
        cases hp : net (Request.post ap.usagestatsurl "invalid service type sent") <;>
          simp [hp]
      · simp [hy]
    · simp only [hs, if_false]
      cases hb : net (Request.get us.sonoshttpaddress) with
      | error e => simp [hb]
      | ok r =>
          by_cases hc : (classify t).1 ≠ "command"
          · simp only [hb, hc, if_true]
            cases hq : net (Request.get
                (us.sonoshttpaddress ++ "/" ++ room0 ++ "/clearqueue")) <;>
              simp [hq, hc, playStep_room]
          · simp [hb, hc, playStep_room]
  · intro h
    simp [on_tag_detected, h]

/-- C7 witness: the theorem applied to a non-room tag (`tunein:7`) and to a room
tag (`room:Bar`). -/
theorem room_state_only_mutated_by_room_witness :
    (on_tag_detected usNo apX netOk "Den" "tunein:7").room = "Den" ∧
    on_tag_detected usNo apX netOk "Den" "room:Bar" =
      ⟨[], "room:Bar".drop 5, Except.ok true⟩ :=
  ⟨(room_state_only_mutated_by_room usNo apX netOk "Den" "tunein:7").1 (by decide),
   (room_state_only_mutated_by_room usNo apX netOk "Den" "room:Bar").2 (by decide)⟩

/-- C9: for every recognised non-room directive the first request issued is the
reachability GET of the configured gateway base URL, and if that pre-flight
request raises, the handler logs, returns `True` with no queue-clear and no
play request issued, and the current room is unchanged. -/
theorem preflight_precedes_and_contains (us : UserSettings) (ap : AppSettings)
    (net : Net) (room0 t : String)
    (h1 : (classify t).1 ≠ "")
    (h2 : pyStartswith (pyLower t) "room" = false) :
    (on_tag_detected us ap net room0 t).trace.head? =
      some (Request.get us.sonoshttpaddress) ∧
    (∀ e, net (Request.get us.sonoshttpaddress) = Except.error e →
      on_tag_detected us ap net room0 t =
        ⟨[Request.get us.sonoshttpaddress], room0, Except.ok true⟩) := by
  constructor
  · unfold on_tag_detected
    simp only [h2, Bool.false_eq_true, if_false, h1, if_false]
    cases hb : net (Request.get us.sonoshttpaddress) with
    | error e => simp [hb]
    | ok r =>
        by_cases hc : (classify t).1 ≠ "command"
        · simp only [hb, hc, if_true]
          cases hq : net (Request.get
              (us.sonoshttpaddress ++ "/" ++ room0 ++ "/clearqueue")) <;>
            simp [hq, hc, playStep_trace]
        · simp [hb, hc, playStep_trace]
  · intro e he
    simp [on_tag_detected, h1, h2, he]

/-- C9 witness: the theorem applied to the tag `spotify:x` with a network whose
pre-flight request raises. -/
theorem preflight_precedes_and_contains_witness :
    (on_tag_detected usNo apX netPreFails "Kitchen" "spotify:x").trace.head? =
      some (Request.get usNo.sonoshttpaddress) ∧
    on_tag_detected usNo apX netPreFails "Kitchen" "spotify:x" =
      ⟨[Request.get usNo.sonoshttpaddress], "Kitchen", Except.ok true⟩ := by
  have h := preflight_precedes_and_contains usNo apX netPreFails "Kitchen"
    "spotify:x" (by decide) (by decide)
  exact ⟨h.1, h.2 "ConnectionError" (by decide)⟩

theorem urltoget_command (us : UserSettings) (room0 t : String)
    (hcmd : pyStartswith (pyLower t) "command" = true) :
    urltoget us room0 t = us.sonoshttpaddress ++ "/" ++ room0 ++ "/" ++ t.drop 8 := by
  have hcl := classify_of_command t hcmd
  have hplc : pyLower "command" = "command" := by decide
  simp [urltoget, hcl, hplc]

theorem playStep_outcome_ok (net : Net) (u : String) (pre : List Request)
    (room : String) (code : Nat) (st : String)
    (h : net (Request.get u) = Except.ok ⟨code, some st⟩) :
    (playStep net u pre room).outcome = Except.ok true := by
  unfold playStep
  rw [h]
  by_cases hc : code ≠ 200 <;> simp [hc]

/-- C1: with the pre-flight check succeeding, every recognised directive that is
neither a command nor a room change first issues the queue-clear GET
`<gateway>/<room>/clearqueue` on the current room and only afterwards (if the
clear did not raise) the play request; a command directive issues exactly the
pre-flight GET followed by the forwarded instruction, with no queue-clear
step. -/
theorem clearqueue_precedes_play (us : UserSettings) (ap : AppSettings)
    (net : Net) (room0 t : String) (r0 : HttpResponse)
    (hpre : net (Request.get us.sonoshttpaddress) = Except.ok r0) :
    ((classify t).1 ≠ "" → (classify t).1 ≠ "command" →
      pyStartswith (pyLower t) "room" = false →
      (on_tag_detected us ap net room0 t).trace =
        [Request.get us.sonoshttpaddress,
         Request.get (us.sonoshttpaddress ++ "/" ++ room0 ++ "/clearqueue")] ∨
      (on_tag_detected us ap net room0 t).trace =
        [Request.get us.sonoshttpaddress,
         Request.get (us.sonoshttpaddress ++ "/" ++ room0 ++ "/clearqueue"),
         Request.get (urltoget us room0 t)]) ∧
    (pyStartswith (pyLower t) "command" = true →
      (on_tag_detected us ap net room0 t).trace =
        [Request.get us.sonoshttpaddress,
         Request.get (us.sonoshttpaddress ++ "/" ++ room0 ++ "/" ++ t.drop 8)]) := by
  constructor
  · intro h1 hc h2
    cases hq : net (Request.get
        (us.sonoshttpaddress ++ "/" ++ room0 ++ "/clearqueue")) with
    | error e =>
        left
        simp [on_tag_detected, h1, h2, hc, hpre, hq]
    | ok r1 =>
        right
        simp [on_tag_detected, h1, h2, hc, hpre, hq, playStep_trace]
  · intro hcmd
    have hcl := classify_of_command t hcmd
    have h2 := room_false_of_command t hcmd
    have hurl := urltoget_command us room0 t hcmd
    rw [← hurl]
    simp [on_tag_detected, hcl, h2, hpre, playStep_trace]

/-- C1 witness: the theorem applied to the spotify tag `spotify:x` and to the
command tag `command:pause` against an all-success network. -/
theorem clearqueue_precedes_play_witness :
    ((on_tag_detected usNo apX netOk "Kitchen" "spotify:x").trace =
      [Request.get usNo.sonoshttpaddress,
       Request.get (usNo.sonoshttpaddress ++ "/" ++ "Kitchen" ++ "/clearqueue")] ∨
     (on_tag_detected usNo apX netOk "Kitchen" "spotify:x").trace =
      [Request.get usNo.sonoshttpaddress,
       Request.get (usNo.sonoshttpaddress ++ "/" ++ "Kitchen" ++ "/clearqueue"),
       Request.get (urltoget usNo "Kitchen" "spotify:x")]) ∧
    (on_tag_detected usNo apX netOk "Kitchen" "command:pause").trace =
      [Request.get usNo.sonoshttpaddress,
       Request.get (usNo.sonoshttpaddress ++ "/" ++ "Kitchen" ++ "/" ++
         "command:pause".drop 8)] :=
  ⟨(clearqueue_precedes_play usNo apX netOk "Kitchen" "spotify:x"
      ⟨200, some "success"⟩ rfl).1 (by decide) (by decide) (by decide),
   (clearqueue_precedes_play usNo apX netOk "Kitchen" "command:pause"
      ⟨200, some "success"⟩ rfl).2 (by decide)⟩

/-- C3 counterexample: with a network where the queue-clear GET raises, the
handler on `spotify:album:123` ends in an uncaught exception rather than the
logged-and-handled return the claim requires: the failure is only caught by the
polling loop, not inside the tag's dispatch. -/
theorem transport_failure_escapes_handler :
    (on_tag_detected usNo apX netClearFails "Kitchen" "spotify:album:123").outcome =
      Except.error "ConnectionError" ∧
    (on_tag_detected usNo apX netClearFails "Kitchen" "spotify:album:123").outcome ≠
      Except.ok true := by
  decide

/-- C3 (amended): transport failures of the guarded pre-flight request are
caught inside the handler, which returns `True` as handled; failures of the
later queue-clear/play requests escape the handler, but the polling loop's
catch-all `except Exception` absorbs every outcome, so the loop processes every
scheduled tag no matter what the network does, ending only with the schedule
(shutdown). -/
theorem tag_failures_never_kill_loop :
    (∀ (us : UserSettings) (ap : AppSettings) (net : Net) (room t e : String),
      (classify t).1 ≠ "" → pyStartswith (pyLower t) "room" = false →
      net (Request.get us.sonoshttpaddress) = Except.error e →
      on_tag_detected us ap net room t =
        ⟨[Request.get us.sonoshttpaddress], room, Except.ok true⟩) ∧
    (∀ (us : UserSettings) (ap : AppSettings) (net : Net) (room : String)
      (ts : List String), (runLoop us ap net room ts).2 = ts.length) := by
  constructor
  · intro us ap net room t e h1 h2 he
    simp [on_tag_detected, h1, h2, he]
  · intro us ap net room ts
    induction ts generalizing room with
    | nil => rfl
    | cons t ts ih => simp [runLoop, ih]

/-- C3 amended witness: pre-flight failure contained on `tunein:9`, and a
three-tag schedule fully processed against the clear-failing network. -/
theorem tag_failures_never_kill_loop_witness :
    on_tag_detected usNo apX netPreFails "Kitchen" "tunein:9" =
      ⟨[Request.get usNo.sonoshttpaddress], "Kitchen", Except.ok true⟩ ∧
    (runLoop usNo apX netClearFails "Kitchen"
      ["spotify:a", "room:Den", "bad"]).2 = 3 :=
  ⟨tag_failures_never_kill_loop.1 usNo apX netPreFails "Kitchen" "tunein:9"
      "ConnectionError" (by decide) (by decide) (by decide),
   tag_failures_never_kill_loop.2 usNo apX netClearFails "Kitchen"
      ["spotify:a", "room:Den", "bad"]⟩

/-- C4 counterexample: the command payload `shuffle` names none of the six
actions, yet the handler is not a no-op for it — it issues a GET carrying the
unknown payload to the gateway (while still reporting success). -/
theorem unknown_command_payload_not_noop :
    (on_tag_detected usNo apX netOk "Kitchen" "command:shuffle").trace =
      [Request.get "http://192.168.1.10:5005",
       Request.get "http://192.168.1.10:5005/Kitchen/shuffle"] ∧
    "shuffle" ∉ ["play", "pause", "next", "previous", "volume_up",
                 "volume_down"] ∧
    (on_tag_detected usNo apX netOk "Kitchen" "command:shuffle").outcome =
      Except.ok true := by
  decide

/-- C4 (amended): for every command directive the payload — the text after the
first 8 characters, case preserved — is forwarded verbatim as a single GET to
`<gateway>/<room>/<payload>` with no queue-clear and no six-action lookup; the
room is unchanged and, whenever the forwarded request yields a JSON response,
the handler reports the tag as handled regardless of the payload. -/
theorem command_payload_forwarded_verbatim (us : UserSettings)
    (ap : AppSettings) (net : Net) (room0 t : String) (r0 : HttpResponse)
    (hcmd : pyStartswith (pyLower t) "command" = true)
    (hpre : net (Request.get us.sonoshttpaddress) = Except.ok r0) :
    classify t = ("command", t.drop 8) ∧
    (on_tag_detected us ap net room0 t).trace =
      [Request.get us.sonoshttpaddress,
       Request.get (us.sonoshttpaddress ++ "/" ++ room0 ++ "/" ++ t.drop 8)] ∧
    (on_tag_detected us ap net room0 t).room = room0 ∧
    (∀ code st,
      net (Request.get (us.sonoshttpaddress ++ "/" ++ room0 ++ "/" ++ t.drop 8)) =
        Except.ok ⟨code, some st⟩ →
      (on_tag_detected us ap net room0 t).outcome = Except.ok true) := by
  have hcl := classify_of_command t hcmd
  have h2 := room_false_of_command t hcmd
  have hurl := urltoget_command us room0 t hcmd
  refine ⟨hcl, ?_, ?_, ?_⟩
  · rw [← hurl]
    simp [on_tag_detected, hcl, h2, hpre, playStep_trace]
  · simp [on_tag_detected, hcl, h2, hpre, playStep_room]
  · intro code st hresp
    rw [← hurl] at hresp
    simp only [on_tag_detected, hcl, h2]
    simp [hpre, playStep_outcome_ok net _ _ _ code st hresp]

/-- C4 amended witness: the theorem applied to `command:Pause` (case of the
payload preserved in the forwarded URL) against an all-success network. -/
theorem command_payload_forwarded_verbatim_witness :
    classify "command:Pause" = ("command", "command:Pause".drop 8) ∧
    (on_tag_detected usNo apX netOk "Kitchen" "command:Pause").trace =
      [Request.get usNo.sonoshttpaddress,
       Request.get (usNo.sonoshttpaddress ++ "/" ++ "Kitchen" ++ "/" ++
         "command:Pause".drop 8)] ∧
    (on_tag_detected usNo apX netOk "Kitchen" "command:Pause").room =
      "Kitchen" ∧
    (on_tag_detected usNo apX netOk "Kitchen" "command:Pause").outcome =
      Except.ok true := by
  have h := command_payload_forwarded_verbatim usNo apX netOk "Kitchen"
    "command:Pause" ⟨200, some "success"⟩ (by decide) rfl
  exact ⟨h.1, h.2.1, h.2.2.1, h.2.2.2 200 "success" rfl⟩

/-- C6: a tag text matching none of the ten known prefixes is unrecognised:
the handler contacts no audio-platform URL, leaves the room unchanged and
returns `True`; the only traffic is the telemetry post, present exactly when
`sendanonymoususagestatistics` is `"yes"` (assuming the fire-and-forget post
itself does not raise). -/
theorem unrecognised_tag_is_handled_noop (us : UserSettings)
    (ap : AppSettings) (net : Net) (room0 t : String)
    (hnone : ∀ p ∈ knownPrefixes, pyStartswith (pyLower t) p = false)
    (hpost : ∀ u v, ∃ r, net (Request.post u v) = Except.ok r) :
    on_tag_detected us ap net room0 t =
      ⟨(if us.sendanonymoususagestatistics = "yes" then
          [Request.post ap.usagestatsurl "invalid service type sent"] else []),
       room0, Except.ok true⟩ := by
  have h1 := hnone "http" (by decide)
  have h2 := hnone "spotify" (by decide)
  have h3 := hnone "tunein" (by decide)
  have h4 := hnone "favorite" (by decide)
  have h5 := hnone "amazonmusic:" (by decide)
  have h6 := hnone "apple:" (by decide)
  have h7 := hnone "applemusic:" (by decide)
  have h8 := hnone "bbcsounds:" (by decide)
  have h9 := hnone "command" (by decide)
  have h10 := hnone "room" (by decide)
  have hcl : classify t = ("", "") := by
    simp [classify, h1, h2, h3, h4, h5, h6, h7, h8, h9]
  by_cases hy : us.sendanonymoususagestatistics = "yes"
  · obtain ⟨r, hr⟩ := hpost ap.usagestatsurl "invalid service type sent"
    simp [on_tag_detected, h10, hcl, hy, hr]
  · simp [on_tag_detected, h10, hcl, hy]

/-- C6 witness: the theorem applied to the unrecognised tag `albumzzz` with
telemetry enabled. -/
theorem unrecognised_tag_is_handled_noop_witness :
    on_tag_detected usYes apX netOk "Den" "albumzzz" =
      ⟨(if usYes.sendanonymoususagestatistics = "yes" then
          [Request.post apX.usagestatsurl "invalid service type sent"] else []),
       "Den", Except.ok true⟩ :=
  unrecognised_tag_is_handled_noop usYes apX netOk "Den" "albumzzz"
    (by decide) (fun u v => ⟨⟨200, some "success"⟩, rfl⟩)

/-- C8: room-to-target resolution fails with `TargetNotFound` exactly when the
fleet enumeration is empty; with at least one target and no match for the
requested room it succeeds with the first enumerated target and the
fallback-used warning flag set. -/
theorem resolve_fails_iff_fleet_empty :
    (∀ (fleet : List TargetHandle) (roomName : String),
      resolve fleet roomName = Except.error ResolveError.TargetNotFound ↔
        fleet = []) ∧
    (∀ (t : TargetHandle) (ts : List TargetHandle) (roomName : String),
      (∀ tgt ∈ t :: ts, tgt.name ≠ roomName) →
      resolve (t :: ts) roomName = Except.ok (t, true)) := by
  constructor
  · intro fleet roomName
    cases fleet with
    | nil => simp [resolve]
    | cons t ts =>
        simp only [resolve]
        cases h : List.find? (fun tgt => tgt.name == roomName) (t :: ts) with
        | none => simp [h]
        | some tgt => simp [h]
  · intro t ts roomName habs
    have h : List.find? (fun tgt => tgt.name == roomName) (t :: ts) = none := by
      rw [List.find?_eq_none]
      intro x hx
      simp [habs x hx]
    simp [resolve, h]

/-- C8 witness: the empty fleet fails; a one-target fleet with a missing room
name falls back to that target with the warning flag. -/
theorem resolve_fails_iff_fleet_empty_witness :
    resolve [] "Kitchen" = Except.error ResolveError.TargetNotFound ∧
    resolve [⟨"Den"⟩] "Kitchen" = Except.ok (⟨"Den"⟩, true) :=
  ⟨(resolve_fails_iff_fleet_empty.1 [] "Kitchen").mpr rfl,
   resolve_fails_iff_fleet_empty.2 ⟨"Den"⟩ [] "Kitchen" (by decide)⟩
